import Mathlib

/-!
Verification of the client-side data-orchestration layer of the TVshowsRecon
front-end: URL resolution, auth-header attachment, token storage, HTTP error
normalization, the login flow, stale-load discarding, optimistic/pessimistic
favorite toggling, and bulk reconciliation of the per-show library state.

The definitions are shallow embeddings of the TypeScript source
(`web/src/api.ts` and its second variant, `web/src/auth/AuthProvider.tsx`,
`web/src/components/HeartButton.tsx`, the `ShowDetails` component, and
`web/src/pages/favorites.tsx`).  JavaScript strings are modelled as Lean
`String`s, with the JS primitives (`startsWith`, `slice`) given their
character-sequence semantics; remote calls are modelled by passing their
outcome as an explicit argument (the I/O boundary); `localStorage` is
modelled as a state that is either available (holding an optional token) or
throwing on every access.
-/

namespace TVRecon

/-- Model of the JavaScript `String.prototype.startsWith` test used throughout
the API clients: the character sequence of `pre` is a prefix of that of `s`. -/
def jsStartsWith (s pre : String) : Bool :=
  pre.data.isPrefixOf s.data

/-- Model of the `pathname` of `new URL(u)` for an absolute http(s) URL `u`:
drop the scheme and authority, keep the path up to any query or fragment
(defaulting to "/").  Used by `shouldSkipAuth` only on paths that start with
"http". -/
def urlPathname (u : String) : String :=
  let afterScheme := (u.data.dropWhile (· ≠ ':')).drop 3
  let fromSlash := afterScheme.dropWhile (· ≠ '/')
  let path := fromSlash.takeWhile (fun c => c ≠ '?' && c ≠ '#')
  if path.isEmpty then "/" else String.mk path

namespace ApiV1

/-- `const BASE = "/api"` — the configured base of the first API-client
variant in `web/src/api.ts`. -/
def BASE : String := "/api"

/-- First variant of `buildUrl` (`web/src/api.ts`, lines 69–73):
absolute URLs pass through; a path already carrying the "/api" routing
prefix is returned unchanged; otherwise the base is prepended, inserting a
"/" when the path does not start with one. -/
def buildUrl (path : String) : String :=
  if jsStartsWith path "http://" || jsStartsWith path "https://" then path
  else if path = "/api" || jsStartsWith path "/api/" then path
  else BASE ++ (if jsStartsWith path "/" then "" else "/") ++ path

end ApiV1

namespace ApiV2

/-- `BASE.replace(/\/+$/, "")` — normalize the configured base by removing
every trailing slash (second variant, `web/src/api.ts`). -/
def baseNorm (base : String) : String :=
  String.mk ((base.data.reverse.dropWhile (· = '/')).reverse)

/-- Second variant of `buildUrl` (`web/src/api.ts`, lines 497–507),
parameterized by the configured base URL (`VITE_API_BASE` or its defaults):
absolute URLs pass through; a leading "/api" is stripped from the path
(`p.slice(4)`) so callers that already include it do not double-prefix; the
normalized base is then prepended. -/
def buildUrl (base path : String) : String :=
  if jsStartsWith path "http://" || jsStartsWith path "https://" then path
  else
    let p := if path = "/api" then ""
      else if jsStartsWith path "/api/" then path.drop 4
      else path
    baseNorm base ++ (if jsStartsWith p "/" then "" else "/") ++ p

end ApiV2

/-- `shouldSkipAuth` — identical in both API-client variants: credential
exchange requests (paths under "/auth/login" or "/auth/register") are issued
without the Authorization header.  For an absolute URL the check is applied
to its pathname. -/
def shouldSkipAuth (path : String) : Bool :=
  let p := if jsStartsWith path "http" then urlPathname path else path
  jsStartsWith p "/auth/login" || jsStartsWith p "/auth/register"

/-- The two headers the HTTP helpers manipulate (a `Headers` object restricted
to the keys the source reads or writes). -/
structure Headers where
  contentType : Option String
  authorization : Option String
deriving DecidableEq

/-- Header preparation common to both variants of `http` (`web/src/api.ts`,
lines 85–96 and 524–535): default the Content-Type to JSON, then, unless the
path is a credential-exchange path, attach a bearer token when one is present
(a JS-truthy, i.e. nonempty, string) and the caller supplied no Authorization
header of their own.  `token` is the value read from the session store. -/
def attachHeaders (path : String) (token : Option String) (h0 : Headers) : Headers :=
  let h1 := if h0.contentType = none then
    { h0 with contentType := some "application/json" } else h0
  if shouldSkipAuth path then h1
  else
    match token with
    | none => h1
    | some tok =>
      if tok ≠ "" ∧ h1.authorization = none then
        { h1 with authorization := some ("Bearer " ++ tok) }
      else h1

/-- The browser `localStorage` as seen by the token helpers: either available,
holding the optional persisted token, or unavailable so that every access
throws. -/
inductive StorageState where
  | unavailable
  | avail (token : Option String)
deriving DecidableEq

namespace Storage

/-- Raw `localStorage.getItem(TOKEN_KEY)`: throws when storage is unavailable. -/
def rawGetItem : StorageState → Except String (Option String)
  | .unavailable => .error "storage unavailable"
  | .avail c => .ok c

/-- Raw `localStorage.setItem(TOKEN_KEY, v)`: throws when storage is
unavailable. -/
def rawSetItem (v : String) : StorageState → Except String StorageState
  | .unavailable => .error "storage unavailable"
  | .avail _ => .ok (.avail (some v))

/-- Raw `localStorage.removeItem(TOKEN_KEY)`: throws when storage is
unavailable. -/
def rawRemoveItem : StorageState → Except String StorageState
  | .unavailable => .error "storage unavailable"
  | .avail _ => .ok (.avail none)

/-- What a caught read of the store reports: the persisted token when storage
is available, `none` otherwise. -/
def report : StorageState → Option String
  | .unavailable => none
  | .avail c => c

end Storage

namespace ApiV1

/-- First variant of `getToken` (`web/src/api.ts`, lines 49–55): try to read
the persisted token, returning null when the read throws.  The result is
always `.ok`: the catch swallows the storage failure. -/
def getToken (st : StorageState) : Except String (Option String) :=
  match Storage.rawGetItem st with
  | .ok v => .ok v
  | .error _ => .ok none

/-- First variant of `setToken` (`web/src/api.ts`, lines 57–62): store a
truthy token, remove the entry otherwise; storage failures are swallowed,
leaving the state unchanged. -/
def setToken (token : Option String) (st : StorageState) : Except String StorageState :=
  let body := match token with
    | some t => if t ≠ "" then Storage.rawSetItem t st else Storage.rawRemoveItem st
    | none => Storage.rawRemoveItem st
  match body with
  | .ok st2 => .ok st2
  | .error _ => .ok st

/-- First variant of `clearToken` (`web/src/api.ts`, lines 64–66):
`setToken(null)`. -/
def clearToken (st : StorageState) : Except String StorageState :=
  setToken none st

/-- The state after running `setToken` (it never throws, so the error branch
is vacuous). -/
def setTokenRun (token : Option String) (st : StorageState) : StorageState :=
  match setToken token st with
  | .ok st2 => st2
  | .error _ => st

/-- The state after running `clearToken`. -/
def clearTokenRun (st : StorageState) : StorageState :=
  setTokenRun none st

end ApiV1

namespace ApiV2

/-- Second variant of `getToken` (`web/src/api.ts`, lines 472–478): same
try/catch around the raw read. -/
def getToken (st : StorageState) : Except String (Option String) :=
  match Storage.rawGetItem st with
  | .ok v => .ok v
  | .error _ => .ok none

/-- Second variant of `setToken` (`web/src/api.ts`, lines 480–486): the token
argument is non-optional; storage failures are ignored. -/
def setToken (t : String) (st : StorageState) : Except String StorageState :=
  match Storage.rawSetItem t st with
  | .ok st2 => .ok st2
  | .error _ => .ok st

/-- Second variant of `clearToken` (`web/src/api.ts`, lines 488–494): remove
the entry, ignoring storage failures. -/
def clearToken (st : StorageState) : Except String StorageState :=
  match Storage.rawRemoveItem st with
  | .ok st2 => .ok st2
  | .error _ => .ok st

end ApiV2

/-- JSON values as the HTTP helpers see them (response bodies and the error
messages computed from them). -/
inductive JsonVal where
  | null
  | bool (b : Bool)
  | num (n : Int)
  | str (s : String)
  | arr (xs : List JsonVal)
  | obj (kvs : List (String × JsonVal))

namespace JsonVal

/-- JavaScript truthiness of a JSON value: null, false, 0 and "" are falsy;
objects and arrays (even empty ones) are truthy. -/
def truthy : JsonVal → Bool
  | .null => false
  | .bool b => b
  | .num n => n ≠ 0
  | .str s => s ≠ ""
  | .arr _ => true
  | .obj _ => true

/-- Property access `j.k`: defined only on objects (first binding wins, as in
a JS object literal); on every other value it is undefined (`none`). -/
def getField : JsonVal → String → Option JsonVal
  | .obj kvs, k => (kvs.find? (fun kv => kv.1 = k)).map (fun kv => kv.2)
  | _, _ => none

end JsonVal

/-- `JSON.stringify` on the modelled JSON values (string escaping omitted:
no claim exercises it). -/
def jsonStringify : JsonVal → String
  | .null => "null"
  | .bool true => "true"
  | .bool false => "false"
  | .num n => toString n
  | .str s => "\"" ++ s ++ "\""
  | .arr xs =>
    "[" ++ String.intercalate "," (xs.attach.map (fun x => jsonStringify x.1)) ++ "]"
  | .obj kvs =>
    "\x7b" ++ String.intercalate ","
      (kvs.attach.map (fun kv => "\"" ++ kv.1.1 ++ "\":" ++ jsonStringify kv.1.2))
      ++ "\x7d"
decreasing_by
  · have h := List.sizeOf_lt_of_mem x.2
    simp only [JsonVal.arr.sizeOf_spec]
    omega
  · have h := List.sizeOf_lt_of_mem kv.2
    have h2 : sizeOf kv.1.2 < sizeOf kv.1 := by
      obtain ⟨⟨k, v⟩, hm⟩ := kv
      simp only [Prod.mk.sizeOf_spec]
      omega
    simp only [JsonVal.obj.sizeOf_spec]
    omega

/-- A settled `fetch` response: its status, status text, the parsed JSON body
when `res.json()` succeeds, and the raw text when `res.text()` succeeds (the
second variant falls back to it). -/
structure HttpResponse where
  status : Nat
  statusText : String
  bodyJson : Option JsonVal
  bodyText : Option String

/-- `Response.ok`: status in the inclusive range 200–299. -/
def statusOk (s : Nat) : Bool :=
  decide (200 ≤ s) && decide (s ≤ 299)

/-- The error message computed by the first variant of `http`
(`web/src/api.ts`, lines 108–116): start from "HTTP <status>"; when the body
parses and its `detail` is a string, use it; else when `detail` is an array
whose first element has a truthy `msg`, use that `msg` (kept as the JSON
value the JS variable receives). -/
def errDetailV1 (status : Nat) (body : Option JsonVal) : JsonVal :=
  let dflt := JsonVal.str ("HTTP " ++ toString status)
  match body with
  | none => dflt
  | some j =>
    match j.getField "detail" with
    | some (.str s) => .str s
    | some (.arr l) =>
      match l.head? with
      | some first =>
        match first.getField "msg" with
        | some m => if m.truthy then m else dflt
        | none => dflt
      | none => dflt
    | _ => dflt

/-- The error message computed by the second variant of `http`
(`web/src/api.ts`, lines 542–556): `detail` is the parsed JSON body, else the
raw text, else null; the message is
`(detail && (detail.detail ?? detail.message ?? JSON.stringify(detail))) || "<status> <statusText>"`,
where `??` skips null/undefined and `||` skips falsy values. -/
def errMessageV2 (res : HttpResponse) : JsonVal :=
  let detail : JsonVal :=
    match res.bodyJson with
    | some j => j
    | none =>
      match res.bodyText with
      | some t => .str t
      | none => .null
  let statusLine := JsonVal.str (toString res.status ++ " " ++ res.statusText)
  if detail.truthy then
    let nonNullish : Option JsonVal → Option JsonVal := fun v =>
      match v with
      | some .null => none
      | some x => some x
      | none => none
    let chain : JsonVal :=
      match nonNullish (detail.getField "detail") with
      | some v => v
      | none =>
        match nonNullish (detail.getField "message") with
        | some v => v
        | none => .str (jsonStringify detail)
    if chain.truthy then chain else statusLine
  else statusLine

/-- The request a call to `http` issues: the resolved URL and the prepared
headers. -/
structure HttpRequest where
  url : String
  headers : Headers
deriving DecidableEq

namespace ApiV1

/-- First variant of `http` (`web/src/api.ts`, lines 80–123), with the
network abstracted: given the path, the caller-supplied headers, the settled
response and the storage state, produce the issued request, the outcome
(parsed body, or the thrown error message), and the storage state afterwards.
A 401 response clears the stored token before the error is thrown. -/
def http (path : String) (h0 : Headers) (res : HttpResponse) (st : StorageState) :
    HttpRequest × Except JsonVal JsonVal × StorageState :=
  let url := buildUrl path
  let hdrs := attachHeaders path (Storage.report st) h0
  let st1 := if res.status = 401 then clearTokenRun st else st
  if statusOk res.status then
    (⟨url, hdrs⟩, .ok ((res.bodyJson).getD .null), st1)
  else
    (⟨url, hdrs⟩, .error (errDetailV1 res.status res.bodyJson), st1)

end ApiV1

namespace ApiV2

/-- Second variant of `http` (`web/src/api.ts`, lines 519–563), parameterized
by the configured base.  It never touches the stored token: the storage state
is returned unchanged. -/
def http (base path : String) (h0 : Headers) (res : HttpResponse) (st : StorageState) :
    HttpRequest × Except JsonVal JsonVal × StorageState :=
  let url := buildUrl base path
  let hdrs := attachHeaders path (Storage.report st) h0
  if statusOk res.status then
    (⟨url, hdrs⟩, .ok ((res.bodyJson).getD .null), st)
  else
    (⟨url, hdrs⟩, .error (errMessageV2 res), st)

end ApiV2

/-- The credential-exchange response body: `{ access_token, token_type? }`. -/
structure LoginResponse where
  access_token : String
deriving DecidableEq

/-- `login` from `web/src/auth/AuthProvider.tsx` (lines 36–43) composed with
the first-variant `api.login` and `api.me` (`web/src/api.ts`, lines 126–132
and 142–144).  `api.login` first clears the stored token and performs the
credential exchange; `lo` is that exchange's parsed outcome (its own storage
side effect is a no-op: a 401 there re-clears the just-cleared slot, so
abstracting it loses nothing).  On success, a falsy `access_token` raises
"No access token returned"; otherwise the token is stored
(`setToken(tok.access_token)`, commented "store token first" in the source)
and only then is identity resolved: `me()` is `http("/auth/me")`, modelled
concretely through `ApiV1.http` on the settled response `meRes` so that its
side effects — in particular clearToken on a 401 — are preserved; its outcome
(success value or thrown message) propagates to the caller unchanged
(`login` has no catch).  Returns the caller-visible outcome and the final
storage state.  A `me()` fetch-level rejection (network failure) is outside
the settled-response model; like any non-401 failure it would run no
clearToken. -/
def loginFlow (lo : Except JsonVal LoginResponse) (meRes : HttpResponse)
    (st : StorageState) : Except JsonVal JsonVal × StorageState :=
  let st1 := ApiV1.clearTokenRun st
  match lo with
  | .error e => (.error e, st1)
  | .ok tok =>
    if tok.access_token = "" then (.error (.str "No access token returned"), st1)
    else
      let st2 := ApiV1.setTokenRun (some tok.access_token) st1
      let r := ApiV1.http "/auth/me" ⟨none, none⟩ meRes st2
      (r.2.1, r.2.2)

/-- View state of the `useTmdbShow` hook (ShowDetails component, unnamed
source file, lines 127–173): the loaded show, the error message, and the
loading flag. -/
structure ShowViewState where
  data : Option JsonVal
  error : Option String
  loading : Bool

/-- A fetch session for `useTmdbShow`: the view state plus the number of
times the load effect has run.  An effect closure's `cancelled` flag is set
exactly when a later run has started, i.e. a closure created as run `g` is
cancelled in a session whose counter is no longer `g`. -/
structure FetchSession where
  view : ShowViewState
  gen : Nat

/-- Outcome of one `fetch` of `/api/shows/:id`: the parsed JSON on a 2xx
response, or the thrown message (an HTTP error status or a network failure). -/
inductive FetchOutcome where
  | success (j : JsonVal)
  | failure (msg : String)

/-- Triggering a load (`useEffect` body re-running on an id change): the
previous closure's cleanup sets its `cancelled` flag — modelled by the
counter increment — and `fetchShow` synchronously runs `setLoading(true);
setError(null)` before its first await. -/
def triggerLoad (s : FetchSession) : FetchSession :=
  { view := { s.view with loading := true, error := none }, gen := s.gen + 1 }

/-- The response handlers of `fetchShow` (lines 145–166): on success
`setData(json)` guarded by `!cancelled`; on failure `setError(...)` guarded by
`!cancelled`; in both cases the `finally` block runs `setLoading(false)`
guarded by `!cancelled`. -/
def applyShowResponse (cancelled : Bool) (r : FetchOutcome) (v : ShowViewState) :
    ShowViewState :=
  match r with
  | .success j =>
    let v1 := if cancelled then v else { v with data := some j }
    if cancelled then v1 else { v1 with loading := false }
  | .failure m =>
    let v1 := if cancelled then v else { v with error := some m }
    if cancelled then v1 else { v1 with loading := false }

/-- Arrival of the response for the load that started as run `g`: its closure
sees `cancelled = true` iff a later run has been triggered since. -/
def respond (g : Nat) (r : FetchOutcome) (s : FetchSession) : FetchSession :=
  { s with view := applyShowResponse (g != s.gen) r s.view }

/-- View state of the favorites / not-interested effect of the ShowDetails
component (unnamed source file, lines 260–337). -/
structure UserListsState where
  favoriteIds : List Nat
  favoritesLoading : Bool
  favoritesError : Option String
  notInterestedIds : List Nat
  notInterestedLoading : Bool
  notInterestedError : Option String

/-- Fetch session for that effect: both `fetchFavorites` and
`fetchNotInterested` capture the same `cancelled` flag of their effect run. -/
structure UserListsSession where
  view : UserListsState
  gen : Nat

/-- Outcome of one of the two list fetches: the mapped id list on success
(`favs.map(tmdb_id).filter(isNumber)` resp. `listNotInterested`), or the
error message. -/
inductive ListOutcome where
  | success (ids : List Nat)
  | failure (msg : String)

/-- Effect re-run on a userId change: the previous run's cleanup sets its
`cancelled` flag; both fetches synchronously set their loading flag and clear
their error before the first await. -/
def triggerUserListsLoad (s : UserListsSession) : UserListsSession :=
  { view := { s.view with
      favoritesLoading := true, favoritesError := none,
      notInterestedLoading := true, notInterestedError := none }
  , gen := s.gen + 1 }

/-- Response handlers of `fetchFavorites` (lines 290–310): every state
mutation — `setFavoriteIds`, `setFavoritesError`, and the `finally`
`setFavoritesLoading(false)` — is guarded by `!cancelled`. -/
def applyFavoritesResponse (cancelled : Bool) (r : ListOutcome) (v : UserListsState) :
    UserListsState :=
  match r with
  | .success ids =>
    let v1 := if cancelled then v else { v with favoriteIds := ids }
    if cancelled then v1 else { v1 with favoritesLoading := false }
  | .failure m =>
    let v1 := if cancelled then v else { v with favoritesError := some m }
    if cancelled then v1 else { v1 with favoritesLoading := false }

/-- Response handlers of `fetchNotInterested` (lines 312–329), with the same
`!cancelled` guards. -/
def applyNotInterestedResponse (cancelled : Bool) (r : ListOutcome) (v : UserListsState) :
    UserListsState :=
  match r with
  | .success ids =>
    let v1 := if cancelled then v else { v with notInterestedIds := ids }
    if cancelled then v1 else { v1 with notInterestedLoading := false }
  | .failure m =>
    let v1 := if cancelled then v else { v with notInterestedError := some m }
    if cancelled then v1 else { v1 with notInterestedLoading := false }

/-- Arrival of the favorites response for the load that started as run `g`. -/
def respondFavorites (g : Nat) (r : ListOutcome) (s : UserListsSession) : UserListsSession :=
  { s with view := applyFavoritesResponse (g != s.gen) r s.view }

/-- Arrival of the not-interested response for the load that started as run
`g`. -/
def respondNotInterested (g : Nat) (r : ListOutcome) (s : UserListsSession) : UserListsSession :=
  { s with view := applyNotInterestedResponse (g != s.gen) r s.view }

/-- Outcome of the remote favorite mutation (`addFavorite` / `removeFavorite`):
resolved, or rejected with an error message. -/
inductive RemoteOutcome where
  | ok
  | fail (msg : String)
deriving DecidableEq

namespace HeartButton

/-- Component state of `HeartButton` (`web/src/components/HeartButton.tsx`):
the displayed favorite flag and the busy flag. -/
structure State where
  fav : Bool
  busy : Bool
deriving DecidableEq

/-- `toggle` from `HeartButton.tsx` (lines 18–37), with the remote call
abstracted by its outcome.  Guard: no-op unless `canToggle` and not busy.
The remote call is awaited BEFORE the state flips, so a failure leaves `fav`
unchanged; the catch logs the error and does not re-throw — the caller always
receives a resolved promise, modelled as `.ok ()`. -/
def toggle (canToggle : Bool) (remote : RemoteOutcome) (s : State) :
    State × Except String Unit :=
  if !canToggle || s.busy then (s, .ok ())
  else
    let s1 : State := { s with busy := true }
    match remote with
    | .ok =>
      let s2 := if s1.fav then { s1 with fav := false } else { s1 with fav := true }
      ({ s2 with busy := false }, .ok ())
    | .fail _ =>
      ({ s1 with busy := false }, .ok ())

end HeartButton

/-- `handleToggleFavorite` of the ShowDetails component (unnamed source file,
lines 449–473), with the remote call abstracted.  `hasData` is `!!data`;
`tid` is `getTmdbId(data)` (`none` or 0 are falsy); `userId` is `user?.id`
(`none` when unauthenticated).  Returns the favorite-id list afterwards, the
`notify` messages emitted, and the outcome the caller sees — the catch
swallows the error after notifying, so the result is always `.ok ()`.
Navigation to /login is not modelled. -/
def handleToggleFavorite (hasData : Bool) (tid userId : Option Nat)
    (remote : RemoteOutcome) (favoriteIds : List Nat) :
    List Nat × List String × Except String Unit :=
  if !hasData then (favoriteIds, [], .ok ())
  else
    match tid with
    | none => (favoriteIds, [], .ok ())
    | some t =>
      if t = 0 then (favoriteIds, [], .ok ())
      else
        match userId with
        | none => (favoriteIds, ["Please log in to manage favourites."], .ok ())
        | some uid =>
          if uid = 0 then (favoriteIds, ["Please log in to manage favourites."], .ok ())
          else
            if favoriteIds.contains t then
              match remote with
              | .ok =>
                (favoriteIds.filter (fun x => x ≠ t), ["Removed from favourites."], .ok ())
              | .fail m => (favoriteIds, [m], .ok ())
            else
              match remote with
              | .ok =>
                ( if favoriteIds.contains t then favoriteIds else favoriteIds ++ [t]
                , ["Added to favourites."], .ok ())
              | .fail m => (favoriteIds, [m], .ok ())

/-- One rating row as returned by `listRatings` (`web/src/api.ts`).  The
rating value is kept as a rational (the client applies no arithmetic to it). -/
structure UserRating where
  tmdb_id : Nat
  rating : Rat
  title : Option String
  seasons_completed : Option Int
  notes : Option String
deriving DecidableEq

/-- The per-user library state the cited pages keep in component state:
the favorite id list (`setFavoriteIds` in ShowDetails / the favorites page
list), the ratings rows (`setRatings` in the favorites page), and the
not-interested id list (`setNotInterestedIds` in ShowDetails). -/
structure LibraryView where
  favoriteIds : List Nat
  ratings : List UserRating
  notInterestedIds : List Nat
deriving DecidableEq

/-- The `ratingsMap` lookup of the favorites page (lines 47–56): iterate the
rows, keeping the last row whose positive `tmdb_id` matches (later entries of
the record literal overwrite earlier ones). -/
def ratingsMapLookup (ratings : List UserRating) (id : Nat) : Option UserRating :=
  ratings.foldl
    (fun acc r => if 0 < r.tmdb_id ∧ r.tmdb_id = id then some r else acc) none

/-- The derived per-show library entry: favorite membership (`favIdSet.has`),
the rating value (`ratingsMap[tmdb]?.rating`), and not-interested membership. -/
structure LibraryEntry where
  isFavorite : Bool
  rating : Option Rat
  isNotInterested : Bool
deriving DecidableEq

/-- The entry a view derives for show `id` from the cached per-kind lists. -/
def entryOf (v : LibraryView) (id : Nat) : LibraryEntry :=
  { isFavorite := v.favoriteIds.contains id
  , rating := (ratingsMapLookup v.ratings id).map (fun r => r.rating)
  , isNotInterested := v.notInterestedIds.contains id }

/-- A favorites bulk load (`fetchFavorites`: `setList(favs)` /
`setFavoriteIds(mapped)`): the favorite-id list is replaced wholesale, the
other lists are untouched.  `loaded` is the mapped id list of the response. -/
def applyFavoritesBulk (v : LibraryView) (loaded : List Nat) : LibraryView :=
  { v with favoriteIds := loaded }

/-- A ratings bulk load (`fetchRatings`: `setRatings(res)`). -/
def applyRatingsBulk (v : LibraryView) (loaded : List UserRating) : LibraryView :=
  { v with ratings := loaded }

/-- A not-interested bulk load (`fetchNotInterested`:
`setNotInterestedIds(ni)`). -/
def applyNotInterestedBulk (v : LibraryView) (loaded : List Nat) : LibraryView :=
  { v with notInterestedIds := loaded }

/-! Helper lemmas. -/

theorem jsStartsWith_iff {s pre : String} :
    jsStartsWith s pre = true ↔ pre.data <+: s.data := by
  simp [jsStartsWith, List.isPrefixOf_iff_prefix]

theorem jsStartsWith_false_iff {s pre : String} :
    jsStartsWith s pre = false ↔ ¬ pre.data <+: s.data := by
  rw [← Bool.not_eq_true, jsStartsWith_iff]

theorem head_eq_of_both_isPrefixOf {a b : Char} {l1 l2 l : List Char}
    (h1 : a :: l1 <+: l) (h2 : b :: l2 <+: l) : a = b := by
  obtain ⟨t1, ht1⟩ := h1
  obtain ⟨t2, ht2⟩ := h2
  rw [← ht2] at ht1
  simp only [List.cons_append] at ht1
  injection ht1

theorem jsStartsWith_of_data_eq {s pre : String} {t : List Char}
    (h : s.data = pre.data ++ t) : jsStartsWith s pre = true :=
  jsStartsWith_iff.mpr ⟨t, h.symm⟩

theorem mk_slash_ne_api (u : List Char) (hape : ¬ ['a', 'p', 'i'] <+: u) :
    (String.mk ('/' :: u)) ≠ "/api" := by
  intro h
  apply hape
  have h2 : '/' :: u = ['/', 'a', 'p', 'i'] := congrArg String.data h
  injection h2 with _ h3
  exact h3 ▸ List.prefix_refl _

theorem mk_slash_not_api_slash (u : List Char) (hape : ¬ ['a', 'p', 'i'] <+: u) :
    jsStartsWith (String.mk ('/' :: u)) "/api/" = false := by
  rw [jsStartsWith_false_iff]
  intro h
  apply hape
  have h1 : ('/' :: ['a', 'p', 'i'] : List Char) <+: '/' :: u := by
    refine List.IsPrefix.trans ⟨['/'], ?_⟩ h
    rfl
  rw [List.cons_prefix_cons] at h1
  exact h1.2

theorem apiV1_buildUrl_prefixed (u : List Char) :
    ApiV1.buildUrl ("/api" ++ String.mk ('/' :: u)) = "/api" ++ String.mk ('/' :: u) := by
  have hap : jsStartsWith ("/api" ++ String.mk ('/' :: u)) "/api/" = true :=
    jsStartsWith_of_data_eq (t := u) (by rw [String.data_append]; exact rfl)
  have hh1 : jsStartsWith ("/api" ++ String.mk ('/' :: u)) "http://" = false := rfl
  have hh2 : jsStartsWith ("/api" ++ String.mk ('/' :: u)) "https://" = false := rfl
  simp only [ApiV1.buildUrl]
  rw [hh1, hh2, hap]
  simp

theorem apiV1_buildUrl_unprefixed (u : List Char) (hape : ¬ ['a', 'p', 'i'] <+: u) :
    ApiV1.buildUrl (String.mk ('/' :: u)) = "/api" ++ String.mk ('/' :: u) := by
  have hne := mk_slash_ne_api u hape
  have hnap := mk_slash_not_api_slash u hape
  have hh1 : jsStartsWith (String.mk ('/' :: u)) "http://" = false := rfl
  have hh2 : jsStartsWith (String.mk ('/' :: u)) "https://" = false := rfl
  have hsl : jsStartsWith (String.mk ('/' :: u)) "/" = true :=
    jsStartsWith_of_data_eq (t := u) rfl
  simp only [ApiV1.buildUrl]
  rw [hh1, hh2, hnap, hsl, decide_eq_false hne]
  simp [ApiV1.BASE]

theorem apiV2_buildUrl_prefixed (base : String) (u : List Char) :
    ApiV2.buildUrl base ("/api" ++ String.mk ('/' :: u))
      = ApiV2.baseNorm base ++ "" ++ String.mk ('/' :: u) := by
  have hdrop : ("/api" ++ String.mk ('/' :: u)).drop 4 = String.mk ('/' :: u) := by
    apply String.ext
    rw [String.data_drop, String.data_append]
    rfl
  have hne : ("/api" ++ String.mk ('/' :: u)) ≠ "/api" := by
    intro h
    have h2 := congrArg String.data h
    rw [String.data_append] at h2
    have h3 : ('/' :: 'a' :: 'p' :: 'i' :: '/' :: u : List Char) = ['/', 'a', 'p', 'i'] := h2
    injection h3 with _ h4
    injection h4 with _ h5
    injection h5 with _ h6
    injection h6 with _ h7
    exact List.noConfusion h7
  have hap : jsStartsWith ("/api" ++ String.mk ('/' :: u)) "/api/" = true :=
    jsStartsWith_of_data_eq (t := u) (by rw [String.data_append]; exact rfl)
  have hsl : jsStartsWith (String.mk ('/' :: u)) "/" = true :=
    jsStartsWith_of_data_eq (t := u) rfl
  have hh1 : jsStartsWith ("/api" ++ String.mk ('/' :: u)) "http://" = false := rfl
  have hh2 : jsStartsWith ("/api" ++ String.mk ('/' :: u)) "https://" = false := rfl
  simp only [ApiV2.buildUrl]
  rw [hh1, hh2, if_neg hne, hap]
  simp [hdrop, hsl]

theorem apiV2_buildUrl_unprefixed (base : String) (u : List Char)
    (hape : ¬ ['a', 'p', 'i'] <+: u) :
    ApiV2.buildUrl base (String.mk ('/' :: u))
      = ApiV2.baseNorm base ++ "" ++ String.mk ('/' :: u) := by
  have hne := mk_slash_ne_api u hape
  have hnap := mk_slash_not_api_slash u hape
  have hh1 : jsStartsWith (String.mk ('/' :: u)) "http://" = false := rfl
  have hh2 : jsStartsWith (String.mk ('/' :: u)) "https://" = false := rfl
  have hsl : jsStartsWith (String.mk ('/' :: u)) "/" = true :=
    jsStartsWith_of_data_eq (t := u) rfl
  simp only [ApiV2.buildUrl]
  rw [hh1, hh2, if_neg hne, hnap]
  simp [hsl]

/-- C1: for a base ending in the routing prefix "/api", `buildUrl` never
duplicates and never drops the prefix: for every logical path (a
slash-leading path that does not itself begin with "/api"), resolving the
path with the "/api" prefix already present and resolving it without the
prefix yield the same final URL, in both API-client variants; in particular
both "/api/shows/5" and "/shows/5" resolve to
"https://api.example.com/api/shows/5" against base
"https://api.example.com/api". -/
theorem buildUrl_api_routing_normalization (L : String)
    (hslash : jsStartsWith L "/" = true)
    (hnapi : jsStartsWith L "/api" = false) :
    ApiV1.buildUrl ("/api" ++ L) = ApiV1.buildUrl L
    ∧ ApiV1.buildUrl L = "/api" ++ L
    ∧ (∀ base, ApiV2.buildUrl base ("/api" ++ L) = ApiV2.buildUrl base L)
    ∧ ApiV2.buildUrl "https://api.example.com/api" "/api/shows/5"
        = "https://api.example.com/api/shows/5"
    ∧ ApiV2.buildUrl "https://api.example.com/api" "/shows/5"
        = "https://api.example.com/api/shows/5" := by
  obtain ⟨t, ht⟩ := jsStartsWith_iff.mp hslash
  cases L with
  | mk d =>
    have ht2 : '/' :: t = d := ht
    subst ht2
    have hape : ¬ ['a', 'p', 'i'] <+: t := by
      intro hp
      refine jsStartsWith_false_iff.mp hnapi ?_
      show ('/' :: ['a', 'p', 'i'] : List Char) <+: '/' :: t
      rw [List.cons_prefix_cons]
      exact ⟨rfl, hp⟩
    refine ⟨?_, ?_, ?_, by decide, by decide⟩
    · rw [apiV1_buildUrl_prefixed t, apiV1_buildUrl_unprefixed t hape]
    · exact apiV1_buildUrl_unprefixed t hape
    · intro base
      rw [apiV2_buildUrl_prefixed base t, apiV2_buildUrl_unprefixed base t hape]

/-- Witness for C1 at the logical path "/shows/5". -/
theorem buildUrl_api_routing_normalization_witness :
    ApiV1.buildUrl ("/api" ++ "/shows/5") = ApiV1.buildUrl "/shows/5"
    ∧ ApiV1.buildUrl "/shows/5" = "/api" ++ "/shows/5"
    ∧ ApiV2.buildUrl "https://api.example.com/api" ("/api" ++ "/shows/5")
        = ApiV2.buildUrl "https://api.example.com/api" "/shows/5" := by
  obtain ⟨a, b, c, _, _⟩ :=
    buildUrl_api_routing_normalization "/shows/5" (by decide) (by decide)
  exact ⟨a, b, c "https://api.example.com/api"⟩

/-- C10: `buildUrl` is the identity on absolute URLs — a path beginning with
"http://" or "https://" is returned unchanged, with no base prefix applied,
in both API-client variants. -/
theorem buildUrl_absolute_url_identity (path : String)
    (h : jsStartsWith path "http://" = true ∨ jsStartsWith path "https://" = true) :
    ApiV1.buildUrl path = path ∧ ∀ base, ApiV2.buildUrl base path = path := by
  have hc : (jsStartsWith path "http://" || jsStartsWith path "https://") = true := by
    rcases h with h | h <;> simp [h]
  constructor
  · simp only [ApiV1.buildUrl]
    rw [hc]
    simp
  · intro base
    simp only [ApiV2.buildUrl]
    rw [hc]
    simp

/-- Witness for C10 at an absolute https URL. -/
theorem buildUrl_absolute_url_identity_witness :
    ApiV1.buildUrl "https://img.example.com/p.png" = "https://img.example.com/p.png"
    ∧ ApiV2.buildUrl "/api" "https://img.example.com/p.png"
        = "https://img.example.com/p.png" := by
  obtain ⟨a, b⟩ :=
    buildUrl_absolute_url_identity "https://img.example.com/p.png" (Or.inr (by decide))
  exact ⟨a, b "/api"⟩

theorem applyShowResponse_cancelled (r : FetchOutcome) (v : ShowViewState) :
    applyShowResponse true r v = v := by
  cases r <;> rfl

theorem respond_stale {g : Nat} (r : FetchOutcome) (s : FetchSession) (h : g ≠ s.gen) :
    respond g r s = s := by
  have hb : (g != s.gen) = true := by simpa using h
  simp [respond, hb, applyShowResponse_cancelled]

theorem applyFavoritesResponse_cancelled (r : ListOutcome) (v : UserListsState) :
    applyFavoritesResponse true r v = v := by
  cases r <;> rfl

theorem applyNotInterestedResponse_cancelled (r : ListOutcome) (v : UserListsState) :
    applyNotInterestedResponse true r v = v := by
  cases r <;> rfl

theorem respondFavorites_stale {g : Nat} (r : ListOutcome) (s : UserListsSession)
    (h : g ≠ s.gen) : respondFavorites g r s = s := by
  have hb : (g != s.gen) = true := by simpa using h
  simp [respondFavorites, hb, applyFavoritesResponse_cancelled]

theorem respondNotInterested_stale {g : Nat} (r : ListOutcome) (s : UserListsSession)
    (h : g ≠ s.gen) : respondNotInterested g r s = s := by
  have hb : (g != s.gen) = true := by simpa using h
  simp [respondNotInterested, hb, applyNotInterestedResponse_cancelled]

/-- C2: when a load G1 is triggered and a second load G2 is triggered before
G1's response arrives, only G2 ever mutates the view's visible state: G1's
response — success or failure — is discarded and causes no state mutation,
regardless of completion order.  Stated for the `useTmdbShow` show load and
for the favorites / not-interested loads of the ShowDetails effect. -/
theorem stale_load_never_mutates_view (s0 : FetchSession) (r1 r2 : FetchOutcome)
    (u0 : UserListsSession) (f1 n1 : ListOutcome) :
    (respond (triggerLoad s0).gen r1
        (respond (triggerLoad (triggerLoad s0)).gen r2 (triggerLoad (triggerLoad s0)))
      = respond (triggerLoad (triggerLoad s0)).gen r2 (triggerLoad (triggerLoad s0)))
    ∧ (respond (triggerLoad (triggerLoad s0)).gen r2
        (respond (triggerLoad s0).gen r1 (triggerLoad (triggerLoad s0)))
      = respond (triggerLoad (triggerLoad s0)).gen r2 (triggerLoad (triggerLoad s0)))
    ∧ (respondFavorites (triggerUserListsLoad u0).gen f1
        (triggerUserListsLoad (triggerUserListsLoad u0))
      = triggerUserListsLoad (triggerUserListsLoad u0))
    ∧ (respondNotInterested (triggerUserListsLoad u0).gen n1
        (triggerUserListsLoad (triggerUserListsLoad u0))
      = triggerUserListsLoad (triggerUserListsLoad u0)) := by
  refine ⟨?_, ?_, ?_, ?_⟩
  · exact respond_stale r1 _ (by simp [triggerLoad, respond])
  · rw [respond_stale r1 _ (by simp [triggerLoad])]
  · exact respondFavorites_stale f1 _ (by simp [triggerUserListsLoad])
  · exact respondNotInterested_stale n1 _ (by simp [triggerUserListsLoad])

/-- C7: a bulk load of one kind replaces only that kind's field across the
derived per-show entries — a show in the loaded list gets the field set, a
show absent from it gets the field reset to default, and the other fields of
every show are untouched. -/
theorem bulk_load_replaces_only_its_field (v : LibraryView) (favLoaded : List Nat)
    (ratLoaded : List UserRating) (niLoaded : List Nat) (id : Nat) :
    ((entryOf (applyFavoritesBulk v favLoaded) id).isFavorite = favLoaded.contains id
      ∧ (entryOf (applyFavoritesBulk v favLoaded) id).rating = (entryOf v id).rating
      ∧ (entryOf (applyFavoritesBulk v favLoaded) id).isNotInterested
          = (entryOf v id).isNotInterested)
    ∧ ((entryOf (applyRatingsBulk v ratLoaded) id).rating
          = (ratingsMapLookup ratLoaded id).map (fun r => r.rating)
      ∧ (entryOf (applyRatingsBulk v ratLoaded) id).isFavorite = (entryOf v id).isFavorite
      ∧ (entryOf (applyRatingsBulk v ratLoaded) id).isNotInterested
          = (entryOf v id).isNotInterested)
    ∧ ((entryOf (applyNotInterestedBulk v niLoaded) id).isNotInterested
          = niLoaded.contains id
      ∧ (entryOf (applyNotInterestedBulk v niLoaded) id).isFavorite
          = (entryOf v id).isFavorite
      ∧ (entryOf (applyNotInterestedBulk v niLoaded) id).rating = (entryOf v id).rating) :=
  ⟨⟨rfl, rfl, rfl⟩, ⟨rfl, rfl, rfl⟩, ⟨rfl, rfl, rfl⟩⟩

theorem setTokenV1_ok (tok : Option String) (st : StorageState) :
    ApiV1.setToken tok st = .ok (ApiV1.setTokenRun tok st) := by
  unfold ApiV1.setTokenRun ApiV1.setToken
  cases (match tok with
    | some t => if t ≠ "" then Storage.rawSetItem t st else Storage.rawRemoveItem st
    | none => Storage.rawRemoveItem st) <;> rfl

theorem setTokenV2_ok (t : String) (st : StorageState) :
    ∃ st2, ApiV2.setToken t st = .ok st2 := by
  unfold ApiV2.setToken
  cases Storage.rawSetItem t st <;> exact ⟨_, rfl⟩

theorem clearTokenV2_ok (st : StorageState) :
    ∃ st2, ApiV2.clearToken st = .ok st2 := by
  unfold ApiV2.clearToken
  cases Storage.rawRemoveItem st <;> exact ⟨_, rfl⟩

/-- C9: the token helpers are total at the public interface — for every
storage state (including one whose accesses throw) and every argument,
getToken, setToken and clearToken return normally (never propagate the
exception), and getToken returns the stored string or null; in both
API-client variants. -/
theorem token_helpers_total (st : StorageState) (tok : Option String) (t : String) :
    (ApiV1.getToken st = .ok (Storage.report st))
    ∧ (∃ st2, ApiV1.setToken tok st = .ok st2)
    ∧ (∃ st2, ApiV1.clearToken st = .ok st2)
    ∧ (ApiV2.getToken st = .ok (Storage.report st))
    ∧ (∃ st2, ApiV2.setToken t st = .ok st2)
    ∧ (∃ st2, ApiV2.clearToken st = .ok st2) := by
  refine ⟨?_, ⟨_, setTokenV1_ok tok st⟩, ⟨_, setTokenV1_ok none st⟩, ?_,
    setTokenV2_ok t st, clearTokenV2_ok st⟩
  · cases st <;> rfl
  · cases st <;> rfl

theorem not_http_of_credential_path {path : String}
    (h : jsStartsWith path "/auth/login" = true ∨ jsStartsWith path "/auth/register" = true) :
    jsStartsWith path "http" = false := by
  rw [jsStartsWith_false_iff]
  intro hp
  have hp2 : ('h' :: ['t', 't', 'p'] : List Char) <+: path.data := hp
  rcases h with h | h
  · have h2 : ('/' :: "auth/login".data : List Char) <+: path.data := jsStartsWith_iff.mp h
    exact absurd (head_eq_of_both_isPrefixOf hp2 h2) (by decide)
  · have h2 : ('/' :: "auth/register".data : List Char) <+: path.data := jsStartsWith_iff.mp h
    exact absurd (head_eq_of_both_isPrefixOf hp2 h2) (by decide)

/-- C4: every request through the HTTP helper that is not a credential
exchange (path not under /auth/login or /auth/register) gets a bearer
Authorization header when a token is present; a credential-exchange request
never gets one, even when a stale token exists in storage.  The caller
supplies no Authorization header of its own (no call site in the repository
does). -/
theorem contentType_default_keeps_authorization (h0 : Headers) :
    (if h0.contentType = none then
      { h0 with contentType := some "application/json" } else h0).authorization
      = h0.authorization := by
  by_cases hc : h0.contentType = none
  · rw [if_pos hc]
  · rw [if_neg hc]

theorem http_bearer_header_policy :
    (∀ (path t : String) (h0 : Headers),
      jsStartsWith path "http" = false →
      jsStartsWith path "/auth/login" = false →
      jsStartsWith path "/auth/register" = false →
      t ≠ "" → h0.authorization = none →
      (attachHeaders path (some t) h0).authorization = some ("Bearer " ++ t))
    ∧ (∀ (path : String) (token : Option String) (h0 : Headers),
      (jsStartsWith path "/auth/login" = true ∨ jsStartsWith path "/auth/register" = true) →
      h0.authorization = none →
      (attachHeaders path token h0).authorization = none) := by
  constructor
  · intro path t h0 hh hl hr ht ha
    have hskip : shouldSkipAuth path = false := by
      simp [shouldSkipAuth, hh, hl, hr]
    simp only [attachHeaders, hskip]
    have hauth := (contentType_default_keeps_authorization h0).trans ha
    simp [hauth, ht]
  · intro path token h0 hcred ha
    have hh := not_http_of_credential_path hcred
    have hskip : shouldSkipAuth path = true := by
      rcases hcred with h | h <;> simp [shouldSkipAuth, hh, h]
    simp only [attachHeaders, hskip]
    exact (contentType_default_keeps_authorization h0).trans ha

/-- Witness for C4: a library request with a token gets the bearer header; a
login request with a stale token in storage gets none. -/
theorem http_bearer_header_policy_witness :
    (attachHeaders "/library/7/favorites" (some "tok") ⟨none, none⟩).authorization
      = some ("Bearer " ++ "tok")
    ∧ (attachHeaders "/auth/login" (some "staletoken") ⟨none, none⟩).authorization
      = none := by
  constructor
  · exact http_bearer_header_policy.1 "/library/7/favorites" "tok" ⟨none, none⟩
      (by decide) (by decide) (by decide) (by decide) rfl
  · exact http_bearer_header_policy.2 "/auth/login" (some "staletoken") ⟨none, none⟩
      (Or.inl (by decide)) rfl

/-- C3 counterexample: with the show not a favorite and the remote call
failing, the state indeed stays non-favorite, but the caller receives a
resolved `.ok ()` — not the error the claim requires: both `HeartButton.toggle`
and `handleToggleFavorite` catch the failure (console.error / notify) and do
not re-throw. -/
theorem toggle_favorite_error_swallowed_counterexample :
    HeartButton.toggle true (.fail "HTTP 500") ⟨false, false⟩ = (⟨false, false⟩, .ok ())
    ∧ handleToggleFavorite true (some 42) (some 7) (.fail "HTTP 500") []
      = ([], ["HTTP 500"], .ok ()) :=
  ⟨rfl, rfl⟩

/-- C3 amended: for a show that is not a favorite, a failing remote favorite
mutation leaves the local favorite state false (the call is pessimistic: no
optimistic flip ever happens), but the error is NOT propagated to the caller —
toggle resolves normally, surfacing the failure only through console.error
(HeartButton) or a notify message (ShowDetails). -/
theorem toggle_favorite_failure_keeps_state_and_swallows (m : String)
    (s : HeartButton.State) (hfav : s.fav = false) (hbusy : s.busy = false)
    (t uid : Nat) (ht : t ≠ 0) (huid : uid ≠ 0) (ids : List Nat)
    (hnotfav : ids.contains t = false) :
    ((HeartButton.toggle true (.fail m) s).1.fav = false
      ∧ (HeartButton.toggle true (.fail m) s).2 = .ok ())
    ∧ handleToggleFavorite true (some t) (some uid) (.fail m) ids = (ids, [m], .ok ()) := by
  refine ⟨⟨?_, ?_⟩, ?_⟩
  · simp [HeartButton.toggle, hbusy, hfav]
  · simp [HeartButton.toggle, hbusy]
  · simp [handleToggleFavorite, ht, huid, hnotfav]

/-- Witness for the amended C3 at a concrete failing call. -/
theorem toggle_favorite_failure_keeps_state_and_swallows_witness :
    ((HeartButton.toggle true (.fail "boom") ⟨false, false⟩).1.fav = false
      ∧ (HeartButton.toggle true (.fail "boom") ⟨false, false⟩).2 = .ok ())
    ∧ handleToggleFavorite true (some 42) (some 7) (.fail "boom") []
      = ([], ["boom"], .ok ()) :=
  toggle_favorite_failure_keeps_state_and_swallows "boom" ⟨false, false⟩ rfl rfl
    42 7 (by decide) (by decide) [] rfl

/-- C5 counterexample: a 403 response leaves the stored credential in place in
the first variant, and even a 401 leaves it in place in the second variant —
the session store still reports a token afterwards, contradicting the claimed
invalidation on 401/403 in both variants. -/
theorem http_403_and_v2_401_keep_token_counterexample :
    Storage.report (ApiV1.http "/me" ⟨none, none⟩ ⟨403, "Forbidden", none, none⟩
        (.avail (some "tok"))).2.2 = some "tok"
    ∧ Storage.report (ApiV2.http "/api" "/me" ⟨none, none⟩ ⟨401, "Unauthorized", none, none⟩
        (.avail (some "tok"))).2.2 = some "tok" :=
  ⟨rfl, rfl⟩

/-- C5 amended: only the first variant invalidates the stored credential, and
only on status 401 (the session store then reports no token without an
explicit logout); any other status — 403 included — leaves storage untouched,
and the second variant's http never touches it. -/
theorem http_token_invalidation_amended :
    (∀ (path : String) (h0 : Headers) (res : HttpResponse) (st : StorageState),
      res.status = 401 → Storage.report (ApiV1.http path h0 res st).2.2 = none)
    ∧ (∀ (path : String) (h0 : Headers) (res : HttpResponse) (st : StorageState),
      res.status ≠ 401 → (ApiV1.http path h0 res st).2.2 = st)
    ∧ (∀ (base path : String) (h0 : Headers) (res : HttpResponse) (st : StorageState),
      (ApiV2.http base path h0 res st).2.2 = st) := by
  refine ⟨?_, ?_, ?_⟩
  · intro path h0 res st h
    have hclear : Storage.report (ApiV1.clearTokenRun st) = none := by cases st <;> rfl
    simp only [ApiV1.http, h]
    split <;> simpa using hclear
  · intro path h0 res st h
    simp only [ApiV1.http, if_neg h]
    split <;> rfl
  · intro base path h0 res st
    simp only [ApiV2.http]
    split <;> rfl

/-- Witness for the amended C5: 401 clears in variant one; 403 does not; the
second variant never does. -/
theorem http_token_invalidation_amended_witness :
    Storage.report (ApiV1.http "/me" ⟨none, none⟩ ⟨401, "Unauthorized", none, none⟩
        (.avail (some "tok"))).2.2 = none
    ∧ (ApiV1.http "/me" ⟨none, none⟩ ⟨403, "Forbidden", none, none⟩
        (.avail (some "tok"))).2.2 = .avail (some "tok")
    ∧ (ApiV2.http "/api" "/me" ⟨none, none⟩ ⟨401, "Unauthorized", none, none⟩
        (.avail (some "tok"))).2.2 = .avail (some "tok") :=
  ⟨http_token_invalidation_amended.1 "/me" ⟨none, none⟩ _ _ rfl,
   http_token_invalidation_amended.2.1 "/me" ⟨none, none⟩ _ _ (by decide),
   http_token_invalidation_amended.2.2 "/api" "/me" ⟨none, none⟩ _ _⟩

theorem httpV1_storage_after (path : String) (h0 : Headers) (res : HttpResponse)
    (st : StorageState) :
    (ApiV1.http path h0 res st).2.2
      = if res.status = 401 then ApiV1.clearTokenRun st else st := by
  simp only [ApiV1.http]
  split <;> rfl

theorem httpV1_result_not_ok (path : String) (h0 : Headers) (res : HttpResponse)
    (st : StorageState) (h : statusOk res.status = false) :
    (ApiV1.http path h0 res st).2.1 = .error (errDetailV1 res.status res.bodyJson) := by
  simp [ApiV1.http, h]

theorem clearTokenRun_report (st : StorageState) :
    Storage.report (ApiV1.clearTokenRun st) = none := by
  cases st <;> rfl

/-- C6 counterexample: with a successful credential exchange and an identity
resolution that fails with a non-401 status (here a 500 from /auth/me), login
propagates the failure but the token IS left persisted — the source stores
the token first ("store token first") and only then calls me(), and only a
401 would trigger http's clearToken side effect. -/
theorem login_token_persisted_despite_me_failure_counterexample :
    loginFlow (.ok ⟨"tok123"⟩) ⟨500, "Internal Server Error", none, none⟩ (.avail none)
      = (.error (.str "HTTP 500"), .avail (some "tok123")) :=
  rfl

/-- C6 amended: the token is persisted as soon as the credential exchange
succeeds with a nonempty access_token — BEFORE identity resolution.  A failed
exchange persists nothing (the stale token is cleared up front).  A failed
identity resolution propagates its error to the caller; the fresh token
remains persisted for every non-401 /auth/me response, while a 401 response
clears it again — not by login itself, but as the http helper's own
side effect. -/
theorem login_token_persistence_amended :
    (∀ (e : JsonVal) (meRes : HttpResponse) (st : StorageState),
      loginFlow (.error e) meRes st = (.error e, ApiV1.clearTokenRun st))
    ∧ (∀ (t : String) (meRes : HttpResponse) (c : Option String), t ≠ "" →
      meRes.status ≠ 401 →
      (loginFlow (.ok ⟨t⟩) meRes (.avail c)).2 = .avail (some t))
    ∧ (∀ (t : String) (meRes : HttpResponse) (st : StorageState), t ≠ "" →
      meRes.status = 401 →
      Storage.report (loginFlow (.ok ⟨t⟩) meRes st).2 = none)
    ∧ (∀ (t : String) (meRes : HttpResponse) (st : StorageState), t ≠ "" →
      statusOk meRes.status = false →
      (loginFlow (.ok ⟨t⟩) meRes st).1
        = .error (errDetailV1 meRes.status meRes.bodyJson)) := by
  refine ⟨?_, ?_, ?_, ?_⟩
  · intro e meRes st
    rfl
  · intro t meRes c ht h401
    have h2 : ApiV1.setTokenRun (some t) (ApiV1.clearTokenRun (.avail c))
        = .avail (some t) := by
      simp [ApiV1.setTokenRun, ApiV1.setToken, ApiV1.clearTokenRun,
        Storage.rawSetItem, Storage.rawRemoveItem, ht]
    simp only [loginFlow, if_neg ht, h2]
    rw [httpV1_storage_after, if_neg h401]
  · intro t meRes st ht h401
    simp only [loginFlow, if_neg ht]
    rw [httpV1_storage_after, if_pos h401, clearTokenRun_report]
  · intro t meRes st ht hok
    simp only [loginFlow, if_neg ht]
    exact httpV1_result_not_ok "/auth/me" ⟨none, none⟩ meRes _ hok

/-- Witness for the amended C6: a failed exchange persists nothing; a 500
me() failure leaves the fresh token persisted and propagates "HTTP 500"; a
401 me() failure leaves no token. -/
theorem login_token_persistence_amended_witness :
    loginFlow (.error (.str "bad credentials")) ⟨200, "OK", none, none⟩ (.avail (some "old"))
      = (.error (.str "bad credentials"), ApiV1.clearTokenRun (.avail (some "old")))
    ∧ (loginFlow (.ok ⟨"tok123"⟩) ⟨500, "Internal Server Error", none, none⟩
        (.avail none)).2 = .avail (some "tok123")
    ∧ Storage.report (loginFlow (.ok ⟨"tok123"⟩) ⟨401, "Unauthorized", none, none⟩
        (.avail none)).2 = none
    ∧ (loginFlow (.ok ⟨"tok123"⟩) ⟨500, "Internal Server Error", none, none⟩
        (.avail none)).1 = .error (errDetailV1 500 none) :=
  ⟨login_token_persistence_amended.1 (.str "bad credentials") ⟨200, "OK", none, none⟩ _,
   login_token_persistence_amended.2.1 "tok123" ⟨500, "Internal Server Error", none, none⟩
     none (by decide) (by decide),
   login_token_persistence_amended.2.2.1 "tok123" ⟨401, "Unauthorized", none, none⟩
     (.avail none) (by decide) rfl,
   login_token_persistence_amended.2.2.2 "tok123" ⟨500, "Internal Server Error", none, none⟩
     (.avail none) (by decide) (by decide)⟩

/-- C8 counterexample: in the second variant, a body whose detail is an array
of {msg} objects is NOT reduced to the first element's msg — the whole
array passes through `detail.detail ?? ...` unextracted and becomes the
thrown message. -/
theorem http_error_array_detail_counterexample :
    (ApiV2.http "/api" "/library/ratings" ⟨none, none⟩
        ⟨422, "Unprocessable Entity",
          some (.obj [("detail", .arr [.obj [("msg", .str "Invalid rating")]])]), none⟩
        (.avail none)).2.1
      = .error (.arr [.obj [("msg", .str "Invalid rating")]])
    ∧ errMessageV2 ⟨422, "Unprocessable Entity",
          some (.obj [("detail", .arr [.obj [("msg", .str "Invalid rating")]])]), none⟩
      ≠ .str "Invalid rating" := by
  constructor
  · rfl
  · intro h
    have h0 : errMessageV2 ⟨422, "Unprocessable Entity",
        some (.obj [("detail", .arr [.obj [("msg", .str "Invalid rating")]])]), none⟩
        = .arr [.obj [("msg", .str "Invalid rating")]] := rfl
    rw [h0] at h
    exact absurd h (by simp)

/-- C8 amended: neither helper swallows a failure — every non-2xx status
yields a thrown error.  The FIRST variant extracts the message as claimed:
detail when it is a string, the first element's truthy msg when detail is an
array, "HTTP <status>" otherwise.  The SECOND variant instead uses
`detail ?? message ?? JSON.stringify(body)` — an array-valued detail passes
through unextracted — and falls back to "<status> <statusText>" when no body
is present. -/
theorem http_error_normalization_amended :
    (∀ (path : String) (h0 : Headers) (res : HttpResponse) (st : StorageState),
      statusOk res.status = false →
      (ApiV1.http path h0 res st).2.1 = .error (errDetailV1 res.status res.bodyJson))
    ∧ (∀ (base path : String) (h0 : Headers) (res : HttpResponse) (st : StorageState),
      statusOk res.status = false →
      (ApiV2.http base path h0 res st).2.1 = .error (errMessageV2 res))
    ∧ (∀ (status : Nat) (s : String) (rest : List (String × JsonVal)),
      errDetailV1 status (some (.obj (("detail", .str s) :: rest))) = .str s)
    ∧ (∀ (status : Nat) (m : JsonVal) (l : List JsonVal), m.truthy = true →
      errDetailV1 status (some (.obj [("detail", .arr (.obj [("msg", m)] :: l))])) = m)
    ∧ (∀ status : Nat, errDetailV1 status none = .str ("HTTP " ++ toString status))
    ∧ (∀ (status : Nat) (stext : String) (l : List JsonVal) (bt : Option String),
      errMessageV2 ⟨status, stext, some (.obj [("detail", .arr l)]), bt⟩ = .arr l)
    ∧ (∀ (status : Nat) (stext : String),
      errMessageV2 ⟨status, stext, none, none⟩ = .str (toString status ++ " " ++ stext)) := by
  refine ⟨?_, ?_, ?_, ?_, ?_, ?_, ?_⟩
  · intro path h0 res st h
    simp [ApiV1.http, h]
  · intro base path h0 res st h
    simp [ApiV2.http, h]
  · intro status s rest
    rfl
  · intro status m l hm
    have h0 : errDetailV1 status (some (.obj [("detail", .arr (.obj [("msg", m)] :: l))]))
        = if m.truthy = true then m else .str ("HTTP " ++ toString status) := rfl
    rw [h0, hm]
    simp
  · intro status
    rfl
  · intro status stext l bt
    rfl
  · intro status stext
    rfl

/-- Witness for the amended C8 across the message-shape cases. -/
theorem http_error_normalization_amended_witness :
    (ApiV1.http "/shows/5" ⟨none, none⟩ ⟨404, "Not Found", none, none⟩ (.avail none)).2.1
      = .error (errDetailV1 404 none)
    ∧ (ApiV2.http "/api" "/shows/5" ⟨none, none⟩ ⟨404, "Not Found", none, none⟩
        (.avail none)).2.1 = .error (errMessageV2 ⟨404, "Not Found", none, none⟩)
    ∧ errDetailV1 422 (some (.obj [("detail", .str "boom")])) = .str "boom"
    ∧ errDetailV1 422 (some (.obj [("detail", .arr [.obj [("msg", .str "bad")]])]))
      = .str "bad"
    ∧ errDetailV1 500 none = .str ("HTTP " ++ toString 500)
    ∧ errMessageV2 ⟨422, "Unprocessable Entity", some (.obj [("detail", .arr [])]), none⟩
      = .arr []
    ∧ errMessageV2 ⟨502, "Bad Gateway", none, none⟩
      = .str (toString 502 ++ " " ++ "Bad Gateway") :=
  ⟨http_error_normalization_amended.1 "/shows/5" ⟨none, none⟩ _ _ rfl,
   http_error_normalization_amended.2.1 "/api" "/shows/5" ⟨none, none⟩ _ _ rfl,
   http_error_normalization_amended.2.2.1 422 "boom" [],
   http_error_normalization_amended.2.2.2.1 422 (.str "bad") [] rfl,
   http_error_normalization_amended.2.2.2.2.1 500,
   http_error_normalization_amended.2.2.2.2.2.1 422 "Unprocessable Entity" [] none,
   http_error_normalization_amended.2.2.2.2.2.2 502 "Bad Gateway"⟩

end TVRecon

